import Mathlib

/-!
Shallow embedding of `src/backend/server.py` (TaskWarrior HTTP backend).

Instants (Python `datetime` values, always UTC-aware in this program) are
modelled as `Int`: microseconds since the Unix epoch.  `datetime.strptime`
with the fixed format `%Y%m%dT%H%M%SZ` is modelled by `parseDueMicros`,
Python `dict.get` / `or` defaulting by `pyOrString` / `pyOrRat`, and the
`subprocess.run` outcome by the `RunResult` variant type.  Floats
(`urgency`, `total_seconds()`) are modelled exactly over `Rat` / integer
microseconds; float rounding at extreme magnitudes is out of scope.
-/

/-- Decidable equality for `Except`, used to evaluate concrete runs of the
embedded fallible functions. -/
instance {ε : Type u} {α : Type v} [DecidableEq ε] [DecidableEq α] :
    DecidableEq (Except ε α) := fun x y =>
  match x, y with
  | .error a, .error b =>
    if h : a = b then .isTrue (by rw [h]) else .isFalse (fun hh => h (Except.error.inj hh))
  | .ok a, .ok b =>
    if h : a = b then .isTrue (by rw [h]) else .isFalse (fun hh => h (Except.ok.inj hh))
  | .error _, .ok _ => .isFalse (fun hh => Except.noConfusion hh)
  | .ok _, .error _ => .isFalse (fun hh => Except.noConfusion hh)

/-- Format for the datetime strings in the raw tasks (server.py line 25). -/
def DATETIME_FORMAT : String := "%Y%m%dT%H%M%SZ"

/-- Microseconds per second: Python `timedelta` stores microseconds and
`total_seconds()` divides by 10^6. -/
def MICROS_PER_SECOND : Nat := 1000000

/-- Exception raised when `datetime.strptime` rejects a due string
(server.py lines 65-74).  It carries the offending string. -/
structure IncorrectDateFormatException where
  value : String
deriving DecidableEq, Repr

/-- Single-quote character, used to build the exception message verbatim. -/
def singleQuote : String := String.singleton (Char.ofNat 39)

/-- Message built by `IncorrectDateFormatException.__init__` (server.py line 72-74). -/
def IncorrectDateFormatException.message (e : IncorrectDateFormatException) : String :=
  "Expected date string with format " ++ singleQuote ++ DATETIME_FORMAT ++ singleQuote
    ++ " but got " ++ singleQuote ++ e.value ++ singleQuote

/-- Time-difference record (`TimeDiffModel`, server.py lines 77-93).
Fields default to 0 as in the pydantic model. -/
structure TimeDiffModel where
  days : Int := 0
  hours : Int := 0
  minutes : Int := 0
deriving DecidableEq, Repr

/-- Class constant `SECONDS_PER_MINUTE` (server.py line 85). -/
def TimeDiffModel.SECONDS_PER_MINUTE : Nat := 60

/-- Class constant `MINUTES_PER_HOUR` (server.py line 86). -/
def TimeDiffModel.MINUTES_PER_HOUR : Nat := 60

/-- Class constant `HOURS_PER_DAY` (server.py line 87). -/
def TimeDiffModel.HOURS_PER_DAY : Nat := 24

/-- Class constant `SECONDS_PER_HOUR` (server.py line 88). -/
def TimeDiffModel.SECONDS_PER_HOUR : Nat :=
  TimeDiffModel.SECONDS_PER_MINUTE * TimeDiffModel.MINUTES_PER_HOUR

/-- Class constant `SECONDS_PER_DAY` (server.py line 89). -/
def TimeDiffModel.SECONDS_PER_DAY : Nat :=
  TimeDiffModel.SECONDS_PER_HOUR * TimeDiffModel.HOURS_PER_DAY

/-- Static method `TimeDiffModel.diff` (server.py lines 95-123).  `dt1` and `dt2` are
instants in microseconds.  The branch on `dt1 > dt2` mirrors lines 108-111;
`int(delta.total_seconds())` truncates the non-negative delta to whole
seconds (line 113); the three `divmod` calls are lines 115-117. -/
def TimeDiffModel.diff (dt1 dt2 : Int) : TimeDiffModel :=
  let delta : Int := if dt1 > dt2 then dt1 - dt2 else dt2 - dt1
  let total_seconds : Nat := delta.toNat / MICROS_PER_SECOND
  let days : Nat := total_seconds / TimeDiffModel.SECONDS_PER_DAY
  let remainder1 : Nat := total_seconds % TimeDiffModel.SECONDS_PER_DAY
  let hours : Nat := remainder1 / TimeDiffModel.SECONDS_PER_HOUR
  let remainder2 : Nat := remainder1 % TimeDiffModel.SECONDS_PER_HOUR
  let minutes : Nat := remainder2 / TimeDiffModel.SECONDS_PER_MINUTE
  { days := (days : Int), hours := (hours : Int), minutes := (minutes : Int) }

/-- Leap-year rule of the proleptic Gregorian calendar used by `datetime`. -/
def isLeapYear (y : Nat) : Bool :=
  y % 4 == 0 && (y % 100 != 0 || y % 400 == 0)

/-- Number of days in a month, as validated by the `datetime` constructor. -/
def daysInMonth (y m : Nat) : Nat :=
  if m = 2 then (if isLeapYear y then 29 else 28)
  else if m = 4 || m = 6 || m = 9 || m = 11 then 30
  else 31

/-- Days from the Unix epoch (1970-01-01) to the civil date `y-m-d`,
proleptic Gregorian (the calendar of Python `datetime`); standard
days-from-civil computation, defined for `1 ≤ y`. -/
def daysFromCivil (y m d : Nat) : Int :=
  let yAdj : Nat := if m ≤ 2 then y - 1 else y
  let era : Nat := yAdj / 400
  let yoe : Nat := yAdj % 400
  let mp : Nat := if 2 < m then m - 3 else m + 9
  let doy : Nat := (153 * mp + 2) / 5 + d - 1
  let doe : Nat := yoe * 365 + yoe / 4 - yoe / 100 + doy
  (era * 146097 + doe : Int) - 719468

/-- Microseconds since the Unix epoch of the UTC instant `y-m-d h:mi:s`. -/
def toEpochMicros (y m d h mi s : Nat) : Int :=
  (daysFromCivil y m d * 86400 + (h * 3600 + mi * 60 + s : Nat)) * (MICROS_PER_SECOND : Int)

/-- Numeric value of a decimal digit character, `none` otherwise. -/
def digitVal (c : Char) : Option Nat :=
  if c.isDigit then some (c.toNat - 48) else none

/-- Model of `datetime.strptime(s, DATETIME_FORMAT).replace(tzinfo=timezone.utc)`
(server.py line 171) followed by taking the instant in microseconds: the
documented fixed-width format `YYYYMMDDTHHMMSSZ`, with field validation as
performed by `strptime` and the `datetime` constructor (month 1-12, day valid
for the month, hour 0-23, minute and second 0-59, year at least 1).
Any rejected string maps to `none`, modelling the `ValueError` raised. -/
def parseDueMicros (s : String) : Option Int :=
  match s.data with
  | [y1, y2, y3, y4, mo1, mo2, d1, d2, tch, h1, h2, mi1, mi2, s1, s2, zch] =>
    if tch = 'T' && zch = 'Z' then
      match digitVal y1, digitVal y2, digitVal y3, digitVal y4,
            digitVal mo1, digitVal mo2, digitVal d1, digitVal d2,
            digitVal h1, digitVal h2, digitVal mi1, digitVal mi2,
            digitVal s1, digitVal s2 with
      | some a1, some a2, some a3, some a4, some b1, some b2, some e1, some e2,
        some f1, some f2, some g1, some g2, some k1, some k2 =>
        let y := a1 * 1000 + a2 * 100 + a3 * 10 + a4
        let mo := b1 * 10 + b2
        let d := e1 * 10 + e2
        let h := f1 * 10 + f2
        let mi := g1 * 10 + g2
        let sec := k1 * 10 + k2
        if 1 ≤ y && 1 ≤ mo && mo ≤ 12 && 1 ≤ d && d ≤ daysInMonth y mo
            && h ≤ 23 && mi ≤ 59 && sec ≤ 59
        then some (toEpochMicros y mo d h mi sec)
        else none
      | _, _, _, _, _, _, _, _, _, _, _, _, _, _ => none
    else none
  | _ => none

/-- Raw TaskWarrior export record (`TaskRaw`, server.py lines 29-62).
Every field is optional; `none` covers both an absent key and an explicit
null, exactly as `dict.get` returns `None` for both. -/
structure TaskRaw where
  id : Option Int := none
  description : Option String := none
  due : Option String := none
  entry : Option String := none
  modified : Option String := none
  priority : Option String := none
  project : Option String := none
  status : Option String := none
  uuid : Option String := none
  urgency : Option Rat := none
deriving DecidableEq, Repr

/-- Python `x or dflt` for an optional string `x`: `None` and the empty
string are falsy and give the default. -/
def pyOrString (v : Option String) (dflt : String) : String :=
  match v with
  | none => dflt
  | some s => if s = "" then dflt else s

/-- Python `x or dflt` for an optional number `x`: `None` and `0.0` are
falsy and give the default. -/
def pyOrRat (v : Option Rat) (dflt : Rat) : Rat :=
  match v with
  | none => dflt
  | some q => if q = 0 then dflt else q

/-- Enriched task (`TaskImprovedModel`, server.py lines 126-144).  The source
declares `urgency` as `Optional[float] = 0.0`, but `from_raw` always supplies
a number, so it is modelled as `Rat`. -/
structure TaskImprovedModel where
  description : String := ""
  status : String := "pending"
  priority : Option String := none
  project : Option String := none
  due : Option Int := none
  due_in : Option TimeDiffModel := none
  overdue_by : Option TimeDiffModel := none
  urgency : Rat := 0
deriving DecidableEq, Repr

/-- Lookup `TaskImprovedModel.PRIORITY_MAP.get` applied to the optional raw code
(server.py lines 135 and 162): `dict.get` on a missing key, including the
key `None`, returns `None` without error. -/
def TaskImprovedModel.PRIORITY_MAP (code : Option String) : Option String :=
  match code with
  | none => none
  | some c =>
    if c = "H" then some "HIGH"
    else if c = "M" then some "MEDIUM"
    else if c = "L" then some "LOW"
    else none

/-- Due-date part of `TaskImprovedModel.from_raw` (server.py lines 164-180):
from the optional due string, compute the `(due, due_in, overdue_by)`
triple, or raise `IncorrectDateFormatException`.  A falsy due string leaves
all three `None`; a parsed due is compared with `now`: strictly past due
sets `overdue_by`, otherwise `due_in` is set (lines 177-180). -/
def TaskImprovedModel.dueFields (now : Int) (due : Option String) :
    Except IncorrectDateFormatException
      (Option Int × Option TimeDiffModel × Option TimeDiffModel) :=
  match due with
  | none => .ok (none, none, none)
  | some due_str =>
    if due_str = "" then .ok (none, none, none)
    else
      match parseDueMicros due_str with
      | none => .error ⟨due_str⟩
      | some dueInstant =>
        let time_diff := TimeDiffModel.diff now dueInstant
        if now > dueInstant then .ok (some dueInstant, none, some time_diff)
        else .ok (some dueInstant, some time_diff, none)

/-- Static method `TaskImprovedModel.from_raw` (server.py lines 146-191).  The parameter
`now` is the value produced by the ambient clock read
`datetime.now(timezone.utc)` at line 175, made explicit by the shallow
embedding (see `TaskImprovedModel.from_rawAmbient` for the ambient view);
it is consulted only when a due string is present and parses. -/
def TaskImprovedModel.from_raw (now : Int) (raw_task : TaskRaw) :
    Except IncorrectDateFormatException TaskImprovedModel :=
  (TaskImprovedModel.dueFields now raw_task.due).map fun f =>
    { description := pyOrString raw_task.description ""
      status := pyOrString raw_task.status "pending"
      priority := TaskImprovedModel.PRIORITY_MAP raw_task.priority
      project := raw_task.project
      due := f.1
      due_in := f.2.1
      overdue_by := f.2.2
      urgency := pyOrRat raw_task.urgency 0 }

/-- Number of ambient clock reads `from_raw` performs on this record: the
single `datetime.now(timezone.utc)` at server.py line 175 executes exactly
when the due string is truthy and `strptime` succeeded (the parse failure
at line 173 raises before the read). -/
def TaskImprovedModel.from_rawReads (raw_task : TaskRaw) : Nat :=
  match raw_task.due with
  | none => 0
  | some s => if s = "" then 0 else (if (parseDueMicros s).isSome then 1 else 0)

/-- Ambient view of `TaskImprovedModel.from_raw`: `clock n` is the instant
the `(n+1)`-st `datetime.now` call of the request would return, and `t` is
the number of calls made so far.  Since line 175 is the only clock read in
`from_raw`, the call behaves as `from_raw` applied to the instant read, and
advances the read counter by `from_rawReads`. -/
def TaskImprovedModel.from_rawAmbient (clock : Nat → Int) (t : Nat) (raw_task : TaskRaw) :
    Except IncorrectDateFormatException TaskImprovedModel × Nat :=
  (TaskImprovedModel.from_raw (clock t) raw_task, t + TaskImprovedModel.from_rawReads raw_task)

/-- Whether `from_raw` raises `IncorrectDateFormatException` on this record:
the due string is truthy and fails to parse (server.py lines 168-173).
This does not depend on the clock. -/
def badDue (raw_task : TaskRaw) : Bool :=
  match raw_task.due with
  | none => false
  | some s => (s != "") && (parseDueMicros s).isNone

/-- Batch helper `raw2improved` (server.py lines 244-255): the list comprehension calls
`from_raw` on each element left to right; the first exception aborts the
whole batch.  The clock-read counter is threaded through the calls. -/
def raw2improved (clock : Nat → Int) :
    List TaskRaw → Nat →
    Except IncorrectDateFormatException (List TaskImprovedModel) × Nat
  | [], t => (.ok [], t)
  | r :: rs, t =>
    match TaskImprovedModel.from_rawAmbient clock t r with
    | (.error e, t2) => (.error e, t2)
    | (.ok x, t2) =>
      match raw2improved clock rs t2 with
      | (.error e, t3) => (.error e, t3)
      | (.ok xs, t3) => (.ok (x :: xs), t3)

/-- Instants handed by the ambient clock to the successive `from_raw` calls
of a batch starting at read-count `t`. -/
def clockTimes (clock : Nat → Int) : Nat → List TaskRaw → List Int
  | _, [] => []
  | t, r :: rs => clock t :: clockTimes clock (t + TaskImprovedModel.from_rawReads r) rs

/-- HTTP exception carrying a status code and a detail string
(`fastapi.HTTPException` as used by server.py). -/
structure HTTPException where
  status_code : Nat
  detail : String
deriving DecidableEq, Repr

/-- Outcome of `subprocess.run(CMD, capture_output=True, text=True, timeout=5)`
(server.py lines 212-223): the call raised `TimeoutExpired`, raised
`FileNotFoundError`, raised another `OSError`, or completed with a return
code, captured stdout and captured stderr. -/
inductive RunResult where
  | timeoutExpired
  | fileNotFoundError (msg : String)
  | osError (msg : String)
  | completed (returncode : Int) (stdout : String) (stderr : Option String)
deriving DecidableEq, Repr

/-- Failure of the process-runner part of `get_raw_tasks`: either the
`HTTPException` it raises, or the uncaught `ValueError` that
`signal.Signals(-rc)` raises when `-rc` is not a known signal number. -/
inductive RunnerError where
  | http (e : HTTPException)
  | valueError
deriving DecidableEq, Repr

/-- Model of Python `signal.Signals(n).name` (stdlib, Linux numbering,
common subset): the symbolic name of signal number `n`, or `none` when
`signal.Signals(n)` would raise `ValueError`. -/
def signalName (n : Int) : Option String :=
  if n = 1 then some "SIGHUP" else if n = 2 then some "SIGINT"
  else if n = 3 then some "SIGQUIT" else if n = 4 then some "SIGILL"
  else if n = 5 then some "SIGTRAP" else if n = 6 then some "SIGABRT"
  else if n = 7 then some "SIGBUS" else if n = 8 then some "SIGFPE"
  else if n = 9 then some "SIGKILL" else if n = 10 then some "SIGUSR1"
  else if n = 11 then some "SIGSEGV" else if n = 12 then some "SIGUSR2"
  else if n = 13 then some "SIGPIPE" else if n = 14 then some "SIGALRM"
  else if n = 15 then some "SIGTERM" else none

/-- Model of Python `str.strip()`: remove leading and trailing whitespace
characters. -/
def pyStrip (s : String) : String :=
  ⟨((s.data.dropWhile Char.isWhitespace).reverse.dropWhile Char.isWhitespace).reverse⟩

/-- Process-runner classification of `get_raw_tasks` (server.py lines
211-233): maps the `subprocess.run` outcome to the raised `HTTPException`,
or returns the captured stdout (stderr discarded) when the return code
is 0.  A negative return code whose negation is not a known signal number
makes `signal.Signals` raise `ValueError` (modelled by `.valueError`). -/
def get_raw_tasks_run (res : RunResult) : Except RunnerError String :=
  match res with
  | .timeoutExpired => .error (.http ⟨504, "`task export` timed out"⟩)
  | .fileNotFoundError msg => .error (.http ⟨502, "File not found error: " ++ msg⟩)
  | .osError msg => .error (.http ⟨502, "OS error: " ++ msg⟩)
  | .completed rc stdout stderr =>
    if rc < 0 then
      match signalName (-rc) with
      | some sig => .error (.http ⟨502, "`task export` crashed: " ++ sig⟩)
      | none => .error .valueError
    else if rc ≠ 0 then
      .error (.http ⟨502, "`task export` failed rc=" ++ toString rc ++ ": "
        ++ pyStrip (stderr.getD "")⟩)
    else .ok stdout

/-- JSON value, the result type of Python `json.loads`. -/
inductive Json where
  | null
  | bool (b : Bool)
  | num (q : Rat)
  | str (s : String)
  | arr (elems : List Json)
  | obj (fields : List (String × Json))

/-- Python `isinstance(t, dict)` on a parsed JSON value. -/
def Json.isObj : Json → Bool
  | .obj _ => true
  | _ => false

/-- Detail string of the invalid-JSON failure (server.py line 241). -/
def parseErrorDetail : String := "`task export` generated invalid JSON"

/-- Detail string of the wrong-shape failure (server.py line 238). -/
def shapeErrorDetail : String := "`task export` produced unexpected JSON shape"

/-- Raw-decoder part of `get_raw_tasks` (server.py lines 235-241).  The
input is the result of `json.loads` on the captured stdout (`none` models
the `JSONDecodeError` of invalid JSON).  A parsed value that is not a list,
or a list with a non-dict element, fails with the shape error; otherwise
the list is returned unchanged, order preserved. -/
def get_raw_tasks_decode (parsed : Option Json) : Except HTTPException (List Json) :=
  match parsed with
  | none => .error ⟨502, parseErrorDetail⟩
  | some (.arr tasks) =>
    if tasks.all Json.isObj then .ok tasks
    else .error ⟨502, shapeErrorDetail⟩
  | some _ => .error ⟨502, shapeErrorDetail⟩

/-- Jinja2 subscript lookup `td[key]` on a rendered `TimeDiffModel`
(the template falls back to attribute lookup, so the key names select the
model fields). -/
def timeDiffItem (td : TimeDiffModel) (key : String) : Option Int :=
  if key = "days" then some td.days
  else if key = "hours" then some td.hours
  else if key = "minutes" then some td.minutes
  else none

/-- Keys substituted, in order, into the three numeric slots of the
`Due in:` line of `GPT_TASK_HTML_TEMPLATE` (server.py line 279):
the slot labelled `minutes` reads the `days` key. -/
def dueInSlotKeys : List String := ["days", "hours", "days"]

/-- Keys substituted, in order, into the three numeric slots of the
`Overdue by:` line of `GPT_TASK_HTML_TEMPLATE` (server.py line 285):
the slot labelled `minutes` reads the `days` key. -/
def overdueBySlotKeys : List String := ["days", "hours", "days"]

/-- Values substituted into the numeric slots of a template line for a given
time difference. -/
def renderedSlots (keys : List String) (td : TimeDiffModel) : List (Option Int) :=
  keys.map (timeDiffItem td)

/-- Sort key relation of the HTML endpoint: `a` before `b` when
`a.urgency ≥ b.urgency` (descending). -/
def urgGE (a b : TaskImprovedModel) : Prop := b.urgency ≤ a.urgency

instance : DecidableRel urgGE := fun a b => inferInstanceAs (Decidable (b.urgency ≤ a.urgency))

instance : IsTotal TaskImprovedModel urgGE := ⟨fun a b => le_total b.urgency a.urgency⟩

instance : IsTrans TaskImprovedModel urgGE := ⟨fun _ _ _ hab hbc => le_trans hbc hab⟩

/-- Model of `sorted(tasks, key=attrgetter(urgency-field), reverse=True)` (server.py
lines 354-358).  Python `sorted` is a stable sort, and with `reverse=True`
elements with equal keys still keep their original order; any stable sort
is extensionally that unique reordering, so it is modelled by a stable
insertion sort under the descending-urgency relation. -/
def sortByUrgencyDesc (tasks : List TaskImprovedModel) : List TaskImprovedModel :=
  tasks.insertionSort urgGE

/-- Body of the `/gpt/tasks` endpoint after the raw decode (server.py lines
336-338): the enriched batch in raw order. -/
def gpt_tasks (clock : Nat → Int) (raw_tasks : List TaskRaw) :
    Except IncorrectDateFormatException (List TaskImprovedModel) :=
  (raw2improved clock raw_tasks 0).1

/-- Task order produced by the `/gpt/html/tasks` endpoint after the raw
decode (server.py lines 352-358): the enriched batch sorted by urgency
descending, as handed to the template. -/
def gpt_tasks_html_order (clock : Nat → Int) (raw_tasks : List TaskRaw) :
    Except IncorrectDateFormatException (List TaskImprovedModel) :=
  ((raw2improved clock raw_tasks 0).1).map sortByUrgencyDesc

/-- Whole-second absolute duration between two instants, exactly as
`TimeDiffModel.diff` computes it at server.py lines 108-113 (microsecond
delta of the larger minus the smaller, truncated to seconds). -/
def wholeSeconds (dt1 dt2 : Int) : Nat :=
  (if dt1 > dt2 then dt1 - dt2 else dt2 - dt1).toNat / MICROS_PER_SECOND

/-- Sample due string used by concrete instantiations. -/
def dueSample : String := "20240101T120000Z"

/-- Instant of `dueSample` (2024-01-01 12:00:00 UTC) in microseconds. -/
def dueSampleMicros : Int := 1704110400000000

/-- Raw task whose only field is the sample due string. -/
def rawWithDueSample : TaskRaw := { due := some dueSample }

/-- Raw task carrying only an urgency value. -/
def rawUrg (u : Rat) : TaskRaw := { urgency := some u }

/-- Enriched task carrying only an urgency value (all other fields at
their defaults). -/
def impUrg (u : Rat) : TaskImprovedModel := { urgency := u }

/-! ## Lemmas about the time-delta calculator -/

theorem diff_delta_comm (a b : Int) :
    (if b < a then a - b else b - a) = (if a < b then b - a else a - b) := by
  rcases lt_trichotomy a b with h | h | h
  · rw [if_neg (not_lt.mpr h.le), if_pos h]
  · subst h; simp
  · rw [if_pos h, if_neg (not_lt.mpr h.le)]

theorem diff_comm (a b : Int) : TimeDiffModel.diff a b = TimeDiffModel.diff b a := by
  simp only [TimeDiffModel.diff, gt_iff_lt]
  rw [diff_delta_comm]

theorem diff_self (a : Int) :
    TimeDiffModel.diff a a = { days := 0, hours := 0, minutes := 0 } := by
  simp [TimeDiffModel.diff]

/-- C7: every TimeDiff produced by diff has non-negative days, hours in
0..23, minutes in 0..59, and is the floor-division decomposition of the
whole-second absolute duration (days, then hours, then minutes, residual
seconds discarded). -/
theorem claim_C7_diff_bounds_and_decomposition (a b : Int) :
    0 ≤ (TimeDiffModel.diff a b).days
    ∧ 0 ≤ (TimeDiffModel.diff a b).hours ∧ (TimeDiffModel.diff a b).hours ≤ 23
    ∧ 0 ≤ (TimeDiffModel.diff a b).minutes ∧ (TimeDiffModel.diff a b).minutes ≤ 59
    ∧ (TimeDiffModel.diff a b).days = (wholeSeconds a b / 86400 : Nat)
    ∧ (TimeDiffModel.diff a b).hours = (wholeSeconds a b % 86400 / 3600 : Nat)
    ∧ (TimeDiffModel.diff a b).minutes = (wholeSeconds a b % 86400 % 3600 / 60 : Nat) := by
  simp only [TimeDiffModel.diff, wholeSeconds, TimeDiffModel.SECONDS_PER_DAY,
    TimeDiffModel.SECONDS_PER_HOUR, TimeDiffModel.SECONDS_PER_MINUTE,
    TimeDiffModel.MINUTES_PER_HOUR, TimeDiffModel.HOURS_PER_DAY, MICROS_PER_SECOND]
  norm_num
  omega

/-- C8: the time-delta calculator is symmetric, and the diff of an instant
with itself is the zero TimeDiff. -/
theorem claim_C8_diff_symmetric :
    (∀ a b : Int, TimeDiffModel.diff a b = TimeDiffModel.diff b a)
    ∧ ∀ a : Int, TimeDiffModel.diff a a = { days := 0, hours := 0, minutes := 0 } :=
  ⟨diff_comm, diff_self⟩

/-! ## Lemmas about the normalizer -/

theorem dueFields_none (now : Int) :
    TaskImprovedModel.dueFields now none = .ok (none, none, none) := rfl

theorem dueFields_empty (now : Int) :
    TaskImprovedModel.dueFields now (some "") = .ok (none, none, none) := rfl

theorem dueFields_parse_fail (now : Int) (s : String) (hne : s ≠ "")
    (hp : parseDueMicros s = none) :
    TaskImprovedModel.dueFields now (some s) = .error ⟨s⟩ := by
  simp [TaskImprovedModel.dueFields, hne, hp]

theorem dueFields_overdue (now : Int) (s : String) (d : Int) (hne : s ≠ "")
    (hp : parseDueMicros s = some d) (hlt : d < now) :
    TaskImprovedModel.dueFields now (some s) =
      .ok (some d, none, some (TimeDiffModel.diff now d)) := by
  simp [TaskImprovedModel.dueFields, hne, hp, hlt]

theorem dueFields_due_in (now : Int) (s : String) (d : Int) (hne : s ≠ "")
    (hp : parseDueMicros s = some d) (hle : now ≤ d) :
    TaskImprovedModel.dueFields now (some s) =
      .ok (some d, some (TimeDiffModel.diff now d), none) := by
  simp [TaskImprovedModel.dueFields, hne, hp, not_lt.mpr hle]

theorem from_raw_ok_shape (now : Int) (r : TaskRaw) (t : TaskImprovedModel)
    (h : TaskImprovedModel.from_raw now r = .ok t) :
    t.description = pyOrString r.description ""
    ∧ t.status = pyOrString r.status "pending"
    ∧ t.priority = TaskImprovedModel.PRIORITY_MAP r.priority
    ∧ t.project = r.project
    ∧ t.urgency = pyOrRat r.urgency 0 := by
  unfold TaskImprovedModel.from_raw at h
  cases hdf : TaskImprovedModel.dueFields now r.due with
  | error e => rw [hdf] at h; simp [Except.map] at h
  | ok f => rw [hdf] at h; simp [Except.map] at h; rw [← h]; simp

theorem from_raw_ok_due (now : Int) (r : TaskRaw) (t : TaskImprovedModel)
    (f : Option Int × Option TimeDiffModel × Option TimeDiffModel)
    (hdf : TaskImprovedModel.dueFields now r.due = .ok f)
    (h : TaskImprovedModel.from_raw now r = .ok t) :
    t.due = f.1 ∧ t.due_in = f.2.1 ∧ t.overdue_by = f.2.2 := by
  unfold TaskImprovedModel.from_raw at h
  rw [hdf] at h
  simp [Except.map] at h
  rw [← h]
  simp

theorem from_raw_error_iff (now : Int) (r : TaskRaw) (e : IncorrectDateFormatException) :
    TaskImprovedModel.from_raw now r = .error e ↔
      TaskImprovedModel.dueFields now r.due = .error e := by
  unfold TaskImprovedModel.from_raw
  cases hdf : TaskImprovedModel.dueFields now r.due with
  | error e2 => simp [Except.map]
  | ok f => simp [Except.map]

theorem badDue_false_ok (now : Int) (r : TaskRaw) (h : badDue r = false) :
    ∃ t, TaskImprovedModel.from_raw now r = .ok t := by
  unfold badDue at h
  unfold TaskImprovedModel.from_raw
  cases hdue : r.due with
  | none => exact ⟨_, rfl⟩
  | some s =>
    rw [hdue] at h
    by_cases hs : s = ""
    · subst hs; exact ⟨_, rfl⟩
    · cases hp : parseDueMicros s with
      | none => simp [hs, hp] at h
      | some d =>
        by_cases hgt : d < now
        · exact ⟨_, by rw [dueFields_overdue now s d hs hp hgt]; rfl⟩
        · exact ⟨_, by rw [dueFields_due_in now s d hs hp (not_lt.mp hgt)]; rfl⟩

theorem badDue_true_error (now : Int) (r : TaskRaw) (h : badDue r = true) :
    ∃ s, r.due = some s ∧ TaskImprovedModel.from_raw now r = .error ⟨s⟩ := by
  unfold badDue at h
  cases hdue : r.due with
  | none => rw [hdue] at h; simp at h
  | some s =>
    rw [hdue] at h
    simp only [Bool.and_eq_true, bne_iff_ne, ne_eq, Option.isNone_iff_eq_none] at h
    refine ⟨s, rfl, ?_⟩
    rw [from_raw_error_iff, hdue, dueFields_parse_fail now s h.1 h.2]

/-- C9: the normalized priority follows the fixed map (H to HIGH, M to
MEDIUM, L to LOW), is absent for an absent or unmapped code, and an
unmapped code raises no error. -/
theorem claim_C9_priority_map (now : Int) (r : TaskRaw) (t : TaskImprovedModel) :
    (TaskImprovedModel.from_raw now r = .ok t →
      t.priority = TaskImprovedModel.PRIORITY_MAP r.priority)
    ∧ TaskImprovedModel.PRIORITY_MAP (some "H") = some "HIGH"
    ∧ TaskImprovedModel.PRIORITY_MAP (some "M") = some "MEDIUM"
    ∧ TaskImprovedModel.PRIORITY_MAP (some "L") = some "LOW"
    ∧ TaskImprovedModel.PRIORITY_MAP none = none
    ∧ (∀ p : String, p ≠ "H" → p ≠ "M" → p ≠ "L" →
        TaskImprovedModel.PRIORITY_MAP (some p) = none)
    ∧ (badDue r = false → ∃ u, TaskImprovedModel.from_raw now r = .ok u) := by
  refine ⟨fun h => (from_raw_ok_shape now r t h).2.2.1, rfl, rfl, rfl, rfl, ?_,
    badDue_false_ok now r⟩
  intro p h1 h2 h3
  simp [TaskImprovedModel.PRIORITY_MAP, h1, h2, h3]

theorem claim_C9_priority_map_witness :
    ({ priority := none : TaskImprovedModel }).priority
      = TaskImprovedModel.PRIORITY_MAP ({ priority := some "Q" : TaskRaw }).priority
    ∧ TaskImprovedModel.PRIORITY_MAP (some "Q") = none
    ∧ ∃ u, TaskImprovedModel.from_raw 0 { priority := some "Q" } = .ok u :=
  ⟨(claim_C9_priority_map 0 { priority := some "Q" } { priority := none }).1 (by decide),
   (claim_C9_priority_map 0 { priority := some "Q" } { priority := none }).2.2.2.2.2.1 "Q"
     (by decide) (by decide) (by decide),
   (claim_C9_priority_map 0 { priority := some "Q" } { priority := none }).2.2.2.2.2.2
     (by decide)⟩

/-- C1 counterexample: when `now` equals the parsed due instant exactly,
the code does set a field: the else-branch at server.py line 180 assigns
`due_in` the zero TimeDiff, so it is not the case that neither `due_in`
nor `overdue_by` is set. -/
theorem claim_C1_counterexample :
    parseDueMicros dueSample = some dueSampleMicros
    ∧ TaskImprovedModel.from_raw dueSampleMicros rawWithDueSample =
        .ok { description := "", status := "pending", priority := none, project := none,
              due := some dueSampleMicros,
              due_in := some { days := 0, hours := 0, minutes := 0 },
              overdue_by := none, urgency := 0 } := by
  constructor <;> rfl

/-- C1 amended: for a raw task whose due string parses to instant `d`,
`overdue_by` is set exactly when `now` is strictly after `d`, and `due_in`
is set exactly when `now ≤ d` -- including `now = d`, where `due_in` is the
zero TimeDiff and `overdue_by` is absent (rather than neither being set). -/
theorem claim_C1_amended (now d : Int) (r : TaskRaw) (s : String) (t : TaskImprovedModel)
    (hdue : r.due = some s) (hne : s ≠ "") (hp : parseDueMicros s = some d)
    (hok : TaskImprovedModel.from_raw now r = .ok t) :
    (t.overdue_by.isSome = true ↔ d < now)
    ∧ (t.due_in.isSome = true ↔ now ≤ d)
    ∧ (now = d →
        t.due_in = some { days := 0, hours := 0, minutes := 0 } ∧ t.overdue_by = none) := by
  by_cases hlt : d < now
  · have hdf : TaskImprovedModel.dueFields now r.due =
        .ok (some d, none, some (TimeDiffModel.diff now d)) := by
      rw [hdue]; exact dueFields_overdue now s d hne hp hlt
    obtain ⟨h1, h2, h3⟩ := from_raw_ok_due now r t _ hdf hok
    rw [h2, h3]
    refine ⟨by simp [hlt], by simp [not_le.mpr hlt], fun he => ?_⟩
    exact absurd hlt (by rw [he]; exact lt_irrefl d)
  · have hle : now ≤ d := not_lt.mp hlt
    have hdf : TaskImprovedModel.dueFields now r.due =
        .ok (some d, some (TimeDiffModel.diff now d), none) := by
      rw [hdue]; exact dueFields_due_in now s d hne hp hle
    obtain ⟨h1, h2, h3⟩ := from_raw_ok_due now r t _ hdf hok
    rw [h2, h3]
    refine ⟨by simp [hlt], by simp [hle], fun he => ?_⟩
    rw [he, diff_self]
    exact ⟨rfl, rfl⟩

theorem claim_C1_amended_witness :
    (some (TimeDiffModel.mk 0 0 0)).isSome = true ↔ dueSampleMicros ≤ dueSampleMicros :=
  ((claim_C1_amended dueSampleMicros dueSampleMicros rawWithDueSample dueSample
    { description := "", status := "pending", priority := none, project := none,
      due := some dueSampleMicros, due_in := some { days := 0, hours := 0, minutes := 0 },
      overdue_by := none, urgency := 0 }
    rfl (by decide) (by rfl) (by rfl)).2.1)

/-- C2 counterexample: the output of the source normalizer varies with the
ambient clock state even though the raw record is the same and no `now`
argument exists to hold fixed -- `from_raw` reads the clock at server.py
line 175 instead of taking `now` as an explicit parameter, so normalization
is not a clock-independent function of the raw record alone. -/
theorem claim_C2_counterexample :
    (TaskImprovedModel.from_rawAmbient (fun _ => dueSampleMicros - 3600000000)
        0 rawWithDueSample).1
      ≠ (TaskImprovedModel.from_rawAmbient (fun _ => dueSampleMicros + 7200000000)
        0 rawWithDueSample).1 := by
  decide

/-- C2 amended: `from_raw` reads `now` from the ambient clock (one read,
performed only when a due string parses) rather than receiving it as a
parameter; the result is deterministic given that single reading: two runs
on the same raw record whose clock reads return the same instant produce
identical enriched tasks. -/
theorem claim_C2_amended (r : TaskRaw) (clock1 clock2 : Nat → Int) (t1 t2 : Nat)
    (h : clock1 t1 = clock2 t2) :
    (TaskImprovedModel.from_rawAmbient clock1 t1 r).1
        = (TaskImprovedModel.from_rawAmbient clock2 t2 r).1
    ∧ (TaskImprovedModel.from_rawAmbient clock1 t1 r).2
        = t1 + TaskImprovedModel.from_rawReads r
    ∧ TaskImprovedModel.from_rawReads r ≤ 1 := by
  refine ⟨by simp [TaskImprovedModel.from_rawAmbient, h], rfl, ?_⟩
  unfold TaskImprovedModel.from_rawReads
  cases r.due with
  | none => simp
  | some s => dsimp only; split <;> [simp; split <;> simp]

theorem claim_C2_amended_witness :
    (TaskImprovedModel.from_rawAmbient (fun _ => dueSampleMicros) 0 rawWithDueSample).1
      = (TaskImprovedModel.from_rawAmbient (fun n => dueSampleMicros + n) 0 rawWithDueSample).1 :=
  (claim_C2_amended rawWithDueSample (fun _ => dueSampleMicros)
    (fun n => dueSampleMicros + n) 0 0 (by decide)).1

/-- C3: in both the `Due in:` and `Overdue by:` lines of the HTML template,
the slot labelled `minutes` substitutes the `days` field of the TimeDiff, so the
rendered minutes value equals the computed minutes only when minutes
happens to equal days. -/
theorem claim_C3_template_minutes_slot (td : TimeDiffModel) :
    renderedSlots dueInSlotKeys td = [some td.days, some td.hours, some td.days]
    ∧ renderedSlots overdueBySlotKeys td = [some td.days, some td.hours, some td.days]
    ∧ ((renderedSlots dueInSlotKeys td).getLast? = some (some td.minutes)
        ↔ td.minutes = td.days)
    ∧ ((renderedSlots overdueBySlotKeys td).getLast? = some (some td.minutes)
        ↔ td.minutes = td.days) := by
  refine ⟨rfl, rfl, ?_, ?_⟩ <;>
  · simp [renderedSlots, dueInSlotKeys, overdueBySlotKeys, timeDiffItem, List.getLast?]
    exact eq_comm

/-- C4: the process runner maps a timeout to status 504; a missing
executable or other OS-level launch failure to status 502 with the OS
error text; a negative return code to status 502 naming the signal
symbolically (given that the signal number is one the `signal` module
knows, as the OS guarantees for real subprocess terminations); a nonzero
non-signal exit to status 502 with the exit code and the trimmed stderr;
and exit code 0 to the captured stdout with stderr discarded. -/
theorem claim_C4_runner_classification (msg stdout sig : String) (stderr : Option String)
    (rc : Int) :
    get_raw_tasks_run .timeoutExpired = .error (.http ⟨504, "`task export` timed out"⟩)
    ∧ get_raw_tasks_run (.fileNotFoundError msg)
        = .error (.http ⟨502, "File not found error: " ++ msg⟩)
    ∧ get_raw_tasks_run (.osError msg) = .error (.http ⟨502, "OS error: " ++ msg⟩)
    ∧ (rc < 0 → signalName (-rc) = some sig →
        get_raw_tasks_run (.completed rc stdout stderr)
          = .error (.http ⟨502, "`task export` crashed: " ++ sig⟩))
    ∧ (0 < rc →
        get_raw_tasks_run (.completed rc stdout stderr)
          = .error (.http ⟨502, "`task export` failed rc=" ++ toString rc ++ ": "
              ++ pyStrip (stderr.getD "")⟩))
    ∧ get_raw_tasks_run (.completed 0 stdout stderr) = .ok stdout := by
  refine ⟨rfl, rfl, rfl, ?_, ?_, rfl⟩
  · intro hneg hsig
    simp [get_raw_tasks_run, hneg, hsig]
  · intro hpos
    simp [get_raw_tasks_run, not_lt.mpr hpos.le, hpos.ne.symm]

theorem claim_C4_runner_classification_witness :
    get_raw_tasks_run (.completed (-9) "out" (some "ignored"))
      = .error (.http ⟨502, "`task export` crashed: SIGKILL"⟩)
    ∧ get_raw_tasks_run (.completed 1 "out" (some " boom "))
      = .error (.http ⟨502, "`task export` failed rc=1: boom"⟩) := by
  refine ⟨(claim_C4_runner_classification "" "out" "SIGKILL" (some "ignored") (-9)).2.2.2.1
    (by decide) (by decide), ?_⟩
  have h := (claim_C4_runner_classification "" "out" "" (some " boom ") 1).2.2.2.2.1
    (by decide)
  rw [h]
  decide

/-- C5: the raw decoder fails with the invalid-JSON error exactly when
`json.loads` failed, fails with the shape error exactly when the parsed
value is not a list of dicts, and otherwise returns the list of mapping
records unchanged, in input order. -/
theorem claim_C5_decoder (parsed : Option Json) :
    (get_raw_tasks_decode parsed = .error ⟨502, parseErrorDetail⟩ ↔ parsed = none)
    ∧ (get_raw_tasks_decode parsed = .error ⟨502, shapeErrorDetail⟩ ↔
        ∃ j, parsed = some j ∧ ∀ l, j = Json.arr l → l.all Json.isObj = false)
    ∧ (∀ l, parsed = some (Json.arr l) → l.all Json.isObj = true →
        get_raw_tasks_decode parsed = .ok l) := by
  have hd : (⟨502, shapeErrorDetail⟩ : HTTPException) ≠ ⟨502, parseErrorDetail⟩ := by decide
  have hd2 : (⟨502, parseErrorDetail⟩ : HTTPException) ≠ ⟨502, shapeErrorDetail⟩ := by decide
  refine ⟨?_, ?_, ?_⟩
  · cases parsed with
    | none => simp [get_raw_tasks_decode]
    | some j =>
      cases j with
      | arr l =>
        cases hall : l.all Json.isObj with
        | true => simp [get_raw_tasks_decode, hall]
        | false => simp [get_raw_tasks_decode, hall, hd]
      | null => simp [get_raw_tasks_decode, hd]
      | bool b => simp [get_raw_tasks_decode, hd]
      | num q => simp [get_raw_tasks_decode, hd]
      | str s => simp [get_raw_tasks_decode, hd]
      | obj fs => simp [get_raw_tasks_decode, hd]
  · cases parsed with
    | none => simp [get_raw_tasks_decode, hd2]
    | some j =>
      cases j with
      | arr l =>
        cases hall : l.all Json.isObj with
        | true =>
          simp only [get_raw_tasks_decode, hall, if_true]
          constructor
          · intro h; exact Except.noConfusion h
          · rintro ⟨j2, hj2, hbad⟩
            cases Option.some.inj hj2
            have hb := hbad l rfl
            rw [hall] at hb
            exact Bool.noConfusion hb
        | false =>
          simp only [get_raw_tasks_decode, hall, Bool.false_eq_true, if_false]
          constructor
          · intro _
            refine ⟨Json.arr l, rfl, fun l2 hl2 => ?_⟩
            cases Json.arr.inj hl2
            exact hall
          · intro _; trivial
      | null =>
        simp only [get_raw_tasks_decode]
        exact ⟨fun _ => ⟨Json.null, rfl, fun l hl => Json.noConfusion hl⟩, fun _ => trivial⟩
      | bool b =>
        simp only [get_raw_tasks_decode]
        exact ⟨fun _ => ⟨Json.bool b, rfl, fun l hl => Json.noConfusion hl⟩, fun _ => trivial⟩
      | num q =>
        simp only [get_raw_tasks_decode]
        exact ⟨fun _ => ⟨Json.num q, rfl, fun l hl => Json.noConfusion hl⟩, fun _ => trivial⟩
      | str s =>
        simp only [get_raw_tasks_decode]
        exact ⟨fun _ => ⟨Json.str s, rfl, fun l hl => Json.noConfusion hl⟩, fun _ => trivial⟩
      | obj fs =>
        simp only [get_raw_tasks_decode]
        exact ⟨fun _ => ⟨Json.obj fs, rfl, fun l hl => Json.noConfusion hl⟩, fun _ => trivial⟩
  · intro l hp hall
    subst hp
    simp [get_raw_tasks_decode, hall]

theorem claim_C5_decoder_witness :
    get_raw_tasks_decode (some (Json.arr [Json.obj [("a", Json.num 1)]]))
      = .ok [Json.obj [("a", Json.num 1)]]
    ∧ get_raw_tasks_decode (some (Json.obj [("a", Json.num 1)]))
      = .error ⟨502, shapeErrorDetail⟩
    ∧ get_raw_tasks_decode (some (Json.arr [Json.num 1, Json.num 2, Json.num 3]))
      = .error ⟨502, shapeErrorDetail⟩
    ∧ get_raw_tasks_decode none = .error ⟨502, parseErrorDetail⟩ :=
  ⟨(claim_C5_decoder _).2.2 [Json.obj [("a", Json.num 1)]] rfl rfl,
   (claim_C5_decoder _).2.1.mpr ⟨_, rfl, fun l h => Json.noConfusion h⟩,
   (claim_C5_decoder _).2.1.mpr ⟨_, rfl, fun l h => by
     cases Json.arr.inj h; rfl⟩,
   (claim_C5_decoder _).1.mpr rfl⟩

/-! ## Lemmas about the batch helper and the presentation order -/

theorem raw2improved_ok_forall (clock : Nat → Int) (raws : List TaskRaw) :
    ∀ (t : Nat) (l : List TaskImprovedModel),
      (raw2improved clock raws t).1 = .ok l →
      List.Forall₂ (fun (p : Int × TaskRaw) (x : TaskImprovedModel) =>
        TaskImprovedModel.from_raw p.1 p.2 = .ok x)
        ((clockTimes clock t raws).zip raws) l := by
  induction raws with
  | nil =>
    intro t l h
    simp only [raw2improved] at h
    cases h
    simp [clockTimes]
  | cons r rs ih =>
    intro t l h
    rw [raw2improved] at h
    simp only [TaskImprovedModel.from_rawAmbient] at h
    cases hfr : TaskImprovedModel.from_raw (clock t) r with
    | error e => rw [hfr] at h; dsimp only at h; exact Except.noConfusion h
    | ok x =>
      rw [hfr] at h
      dsimp only at h
      rcases hrec : raw2improved clock rs (t + TaskImprovedModel.from_rawReads r)
        with ⟨res, t3⟩
      rw [hrec] at h
      cases res with
      | error e => dsimp only at h; exact Except.noConfusion h
      | ok xs =>
        dsimp only at h
        cases Except.ok.inj h
        rw [clockTimes, List.zip_cons_cons]
        exact List.Forall₂.cons hfr (ih _ xs (by rw [hrec]))

theorem raw2improved_error_first (clock : Nat → Int) (raws : List TaskRaw) :
    ∀ (t : Nat) (r : TaskRaw) (s : String),
      raws.find? badDue = some r → r.due = some s →
      (raw2improved clock raws t).1 = .error ⟨s⟩ := by
  induction raws with
  | nil => intro t r s hf; simp at hf
  | cons a as ih =>
    intro t r s hf hdue
    cases hba : badDue a with
    | true =>
      rw [List.find?_cons_of_pos _ hba] at hf
      cases Option.some.inj hf
      obtain ⟨s2, hdue2, herr⟩ := badDue_true_error (clock t) a hba
      cases Option.some.inj (hdue2.symm.trans hdue)
      rw [raw2improved]
      simp only [TaskImprovedModel.from_rawAmbient]
      rw [herr]
    | false =>
      have hba2 : ¬ badDue a = true := by simp [hba]
      rw [List.find?_cons_of_neg _ hba2] at hf
      rw [raw2improved]
      simp only [TaskImprovedModel.from_rawAmbient]
      obtain ⟨x, hok⟩ := badDue_false_ok (clock t) a hba
      rw [hok]
      dsimp only
      rcases hrec : raw2improved clock as (t + TaskImprovedModel.from_rawReads a)
        with ⟨res, t3⟩
      have hres := ih (t + TaskImprovedModel.from_rawReads a) r s hf hdue
      rw [hrec] at hres
      rw [show res = Except.error (⟨s⟩ : IncorrectDateFormatException) from hres]

theorem raw2improved_ok_exists (clock : Nat → Int) (raws : List TaskRaw) :
    ∀ t, (∀ r ∈ raws, badDue r = false) →
      ∃ l, (raw2improved clock raws t).1 = .ok l := by
  induction raws with
  | nil => intro t _; exact ⟨[], rfl⟩
  | cons a as ih =>
    intro t hall
    obtain ⟨x, hok⟩ := badDue_false_ok (clock t) a (hall a (List.mem_cons_self a as))
    obtain ⟨xs, hrec1⟩ := ih (t + TaskImprovedModel.from_rawReads a)
      (fun r hr => hall r (List.mem_cons_of_mem a hr))
    refine ⟨x :: xs, ?_⟩
    rw [raw2improved]
    simp only [TaskImprovedModel.from_rawAmbient]
    rw [hok]
    dsimp only
    rcases hrec : raw2improved clock as (t + TaskImprovedModel.from_rawReads a)
      with ⟨res, t3⟩
    rw [hrec] at hrec1
    rw [show res = Except.ok xs from hrec1]

/-- C6: the batch helper either enriches every element of the raw sequence
in input order, or fails with the `IncorrectDateFormatException` of the
first element whose due string does not parse, returning no partial
result. -/
theorem claim_C6_batch_all_or_first_error (clock : Nat → Int) (raws : List TaskRaw) (t : Nat) :
    ((∀ r ∈ raws, badDue r = false) →
      ∃ l, (raw2improved clock raws t).1 = .ok l
        ∧ List.Forall₂ (fun (p : Int × TaskRaw) (x : TaskImprovedModel) =>
            TaskImprovedModel.from_raw p.1 p.2 = .ok x)
            ((clockTimes clock t raws).zip raws) l)
    ∧ (∀ (r : TaskRaw) (s : String), raws.find? badDue = some r → r.due = some s →
        (raw2improved clock raws t).1 = .error ⟨s⟩) := by
  constructor
  · intro hall
    obtain ⟨l, hl⟩ := raw2improved_ok_exists clock raws t hall
    exact ⟨l, hl, raw2improved_ok_forall clock raws t l hl⟩
  · exact fun r s => raw2improved_error_first clock raws t r s

theorem claim_C6_batch_all_or_first_error_witness :
    (∃ l, (raw2improved (fun _ => 0) [rawUrg 1] 0).1 = .ok l
      ∧ List.Forall₂ (fun (p : Int × TaskRaw) (x : TaskImprovedModel) =>
          TaskImprovedModel.from_raw p.1 p.2 = .ok x)
          ((clockTimes (fun _ => 0) 0 [rawUrg 1]).zip [rawUrg 1]) l)
    ∧ (raw2improved (fun _ => 0) [{ due := some "nonsense" }] 0).1
        = .error ⟨"nonsense"⟩ :=
  ⟨(claim_C6_batch_all_or_first_error (fun _ => 0) [rawUrg 1] 0).1 (by decide),
   (claim_C6_batch_all_or_first_error (fun _ => 0) [{ due := some "nonsense" }] 0).2
     { due := some "nonsense" } "nonsense" (by decide) rfl⟩

theorem filter_sortByUrgencyDesc (l : List TaskImprovedModel) (u : Rat) :
    (sortByUrgencyDesc l).filter (fun x => decide (x.urgency = u))
      = l.filter (fun x => decide (x.urgency = u)) := by
  have hpw : (l.filter (fun x => decide (x.urgency = u))).Pairwise urgGE := by
    refine List.pairwise_of_forall_mem_list fun a ha b hb => ?_
    have ha2 := (List.mem_filter.mp ha).2
    have hb2 := (List.mem_filter.mp hb).2
    have hau : a.urgency = u := of_decide_eq_true ha2
    have hbu : b.urgency = u := of_decide_eq_true hb2
    unfold urgGE
    rw [hau, hbu]
  have hsub : List.Sublist (l.filter (fun x => decide (x.urgency = u))) (sortByUrgencyDesc l) :=
    List.sublist_insertionSort hpw (List.filter_sublist l)
  have hsub2 : List.Sublist ((l.filter (fun x => decide (x.urgency = u))).filter
      (fun x => decide (x.urgency = u)))
      ((sortByUrgencyDesc l).filter (fun x => decide (x.urgency = u))) :=
    hsub.filter _
  rw [List.filter_filter] at hsub2
  have hsub3 : List.Sublist (l.filter (fun x => decide (x.urgency = u)))
      ((sortByUrgencyDesc l).filter (fun x => decide (x.urgency = u))) := by
    refine List.Sublist.trans ?_ hsub2
    have : (fun x : TaskImprovedModel => decide (x.urgency = u) && decide (x.urgency = u))
        = fun x : TaskImprovedModel => decide (x.urgency = u) := by
      funext x
      cases hdec : decide (x.urgency = u) <;> simp [hdec]
    rw [this]
  have hperm : List.Perm ((sortByUrgencyDesc l).filter (fun x => decide (x.urgency = u)))
      (l.filter (fun x => decide (x.urgency = u))) :=
    (List.perm_insertionSort urgGE l).filter _
  exact (hsub3.eq_of_length hperm.length_eq.symm).symm

/-- C10: on every successfully normalized batch, the JSON endpoint emits
the enriched tasks in decoded raw order, while the HTML endpoint renders
the same tasks sorted by urgency descending with a stable sort: the result
is a permutation, pairwise descending in urgency, and for every urgency
value the tasks carrying it keep their relative input order. -/
theorem claim_C10_presentation_order (clock : Nat → Int) (raws : List TaskRaw)
    (l : List TaskImprovedModel) (h : gpt_tasks clock raws = .ok l) :
    List.Forall₂ (fun (p : Int × TaskRaw) (x : TaskImprovedModel) =>
        TaskImprovedModel.from_raw p.1 p.2 = .ok x)
      ((clockTimes clock 0 raws).zip raws) l
    ∧ gpt_tasks_html_order clock raws = .ok (sortByUrgencyDesc l)
    ∧ (sortByUrgencyDesc l).Perm l
    ∧ (sortByUrgencyDesc l).Pairwise urgGE
    ∧ ∀ u : Rat, (sortByUrgencyDesc l).filter (fun x => decide (x.urgency = u))
        = l.filter (fun x => decide (x.urgency = u)) := by
  refine ⟨raw2improved_ok_forall clock raws 0 l h, ?_, List.perm_insertionSort urgGE l,
    List.sorted_insertionSort urgGE l, fun u => filter_sortByUrgencyDesc l u⟩
  unfold gpt_tasks_html_order
  unfold gpt_tasks at h
  rw [h]
  rfl

theorem claim_C10_presentation_order_witness :
    gpt_tasks_html_order (fun _ => 0) [rawUrg 1, rawUrg 5, rawUrg 3]
      = .ok (sortByUrgencyDesc [impUrg 1, impUrg 5, impUrg 3])
    ∧ sortByUrgencyDesc [impUrg 1, impUrg 5, impUrg 3] = [impUrg 5, impUrg 3, impUrg 1] :=
  ⟨(claim_C10_presentation_order (fun _ => 0) [rawUrg 1, rawUrg 5, rawUrg 3]
      [impUrg 1, impUrg 5, impUrg 3] (by decide)).2.1,
   by decide⟩
